import Mathlib

/-!
Verification of the `ai-habit-tracker-backend` service entry point
(`src/app/main.py`) against its natural-language specification.

The source is:

  from fastapi import FastAPI
  app = FastAPI(title="AI Habit Tracker Backend")
  @app.get("/")
  def root():
      return ⟨dict literal with keys status, service, docs⟩

We shallowly embed the JSON fragment the program uses, the FastAPI
application object (title, docs URL, registered routes, middleware), the
route decorator, the `root` handler, and the framework dispatch that turns
a matched request into an HTTP response.
-/

/-- JSON values, restricted to the fragment this program produces:
strings and objects (ordered key/value lists, mirroring Python dict
insertion order). -/
inductive Json where
  | str : String → Json
  | obj : List (String × Json) → Json

/-- Escape a character for a JSON string literal (quote and backslash;
the payload strings of this program contain no control characters). -/
def escapeChar (c : Char) : String :=
  if c = Char.ofNat 34 then "\\\"" else if c = Char.ofNat 92 then "\\\\" else String.singleton c

/-- Escape a whole string for inclusion in a JSON string literal. -/
def escapeString (s : String) : String :=
  String.join (s.data.map escapeChar)

mutual

/-- Compact JSON serialization, as produced by the framework response
class (Python json.dumps with separators ("," , ":")). -/
def Json.serialize : Json → String
  | .str s => "\"" ++ escapeString s ++ "\""
  | .obj kvs => "\x7b" ++ Json.serializeMembers kvs ++ "\x7d"

/-- Serialize the members of a JSON object, comma-separated. -/
def Json.serializeMembers : List (String × Json) → String
  | [] => ""
  | [(k, v)] => "\"" ++ escapeString k ++ "\":" ++ Json.serialize v
  | (k, v) :: kv :: rest =>
      "\"" ++ escapeString k ++ "\":" ++ Json.serialize v ++ "," ++
        Json.serializeMembers (kv :: rest)

end

/-- The keys of a JSON object (empty for non-objects). -/
def Json.objKeys : Json → List String
  | .obj kvs => kvs.map Prod.fst
  | .str _ => []

/-- Whether a JSON value is an object all of whose values are strings. -/
def Json.isObjAllStrings : Json → Bool
  | .obj kvs => kvs.all (fun kv => match kv.snd with | .str _ => true | .obj _ => false)
  | .str _ => false

/-- Look up a key in a JSON object (first match; none for non-objects). -/
def Json.objLookup (j : Json) (k : String) : Option Json :=
  match j with
  | .obj kvs => (kvs.find? (fun kv => kv.fst = k)).map Prod.snd
  | .str _ => none

/-- An HTTP request as the framework presents it to routing: method,
path, headers, raw body. -/
structure Request where
  method : String
  path : String
  headers : List (String × String)
  body : String
deriving DecidableEq, Repr

/-- A registered route: an HTTP method/path pair bound to a handler.
The handler of this program takes no request data (the Python `root`
declares no parameters), and a Python function may raise, so its
embedding returns `Except`. -/
structure Route where
  method : String
  path : String
  handler : Unit → Except String Json

/-- The FastAPI application object: the constructor argument `title`,
the documentation URL, the registered routes, and the user-added
middleware. -/
structure FastAPI where
  title : String
  docs_url : Option String
  routes : List Route
  middleware : List String

/-- The call FastAPI(title=...) in main.py line 3: the framework
constructor leaves `docs_url` at its documented default "/docs" (it is
not overridden), and starts with no application-registered routes or
middleware. -/
def FastAPI.create (title : String) : FastAPI :=
  { title := title, docs_url := some "/docs", routes := [], middleware := [] }

/-- The @app.get(path) decorator: registers a GET route for `path`
bound to the decorated handler. -/
def FastAPI.get (a : FastAPI) (path : String) (h : Unit → Except String Json) : FastAPI :=
  { a with routes := a.routes ++ [{ method := "GET", path := path, handler := h }] }

/-- The dict literal returned by `root` (main.py line 7). -/
def rootPayload : Json :=
  Json.obj
    [ ("status", Json.str "ok")
    , ("service", Json.str "AI Habit Tracker API")
    , ("docs", Json.str "/docs") ]

/-- The handler `root` (main.py lines 5-7): it consumes nothing from the
request and returns the fixed dict; it executes a single `return` of a
literal, so it always returns normally (`Except.ok`). -/
def root : Unit → Except String Json :=
  fun _ => Except.ok rootPayload

/-- The application object `app` of main.py: constructed with
title "AI Habit Tracker Backend", then the decorator registers `root`
at GET "/". -/
def app : FastAPI :=
  (FastAPI.create "AI Habit Tracker Backend").get "/" root

/-- An HTTP response: status code, Content-Type header value, and the
response body bytes. -/
structure Response where
  status : Nat
  contentType : String
  body : String
deriving DecidableEq, Repr

/-- Routing: the first registered route whose method and path both match
the request. -/
def findRoute (routes : List Route) (method path : String) : Option Route :=
  routes.find? (fun r => r.method = method && r.path = path)

/-- Framework dispatch: route the request; on a match, call the handler —
a dict return value is serialized as JSON with Content-Type
application/json and the default status 200; a raised exception becomes a
500. An unmatched path yields the framework default 404 JSON body. -/
def handleRequest (a : FastAPI) (req : Request) : Response :=
  match findRoute a.routes req.method req.path with
  | some r =>
      match r.handler () with
      | Except.ok j => { status := 200, contentType := "application/json", body := j.serialize }
      | Except.error _ =>
          { status := 500, contentType := "text/plain", body := "Internal Server Error" }
  | none =>
      { status := 404, contentType := "application/json"
      , body := (Json.obj [("detail", Json.str "Not Found")]).serialize }

/-- The JSON value the dispatcher serialized into a matched GET "/"
response: the handler result. Used to state structural claims about the
response body. -/
def responseBodyJson (req : Request) : Json :=
  match findRoute app.routes req.method req.path with
  | some r =>
      match r.handler () with
      | Except.ok j => j
      | Except.error _ => Json.str "Internal Server Error"
  | none => Json.obj [("detail", Json.str "Not Found")]

/-- The module-level state of main.py: the single module attribute is the
application object `app`. -/
structure ModuleState where
  appObj : FastAPI

/-- The handler `root` embedded as a state transformer over the module
state: its body reads and writes no module attribute, so the embedding
threads the state through unchanged. -/
def rootStateful (s : ModuleState) : ModuleState × Except String Json :=
  (s, root ())

/-- Dispatch lemma: any request whose method is GET and whose path is "/"
is routed to `root`, producing status 200, Content-Type application/json,
and the serialized payload, independently of headers and body. -/
theorem handle_get_root_eq (req : Request) (hm : req.method = "GET") (hp : req.path = "/") :
    handleRequest app req =
      { status := 200, contentType := "application/json", body := Json.serialize rootPayload } := by
  obtain ⟨m, p, hs, b⟩ := req
  have hm2 : m = "GET" := hm
  have hp2 : p = "/" := hp
  subst hm2
  subst hp2
  rfl

/-- Dispatch lemma at the JSON level: the JSON value serialized into the
response of a matched GET "/" request is the handler payload. -/
theorem responseBodyJson_get_root (req : Request) (hm : req.method = "GET")
    (hp : req.path = "/") : responseBodyJson req = rootPayload := by
  obtain ⟨m, p, hs, b⟩ := req
  have hm2 : m = "GET" := hm
  have hp2 : p = "/" := hp
  subst hm2
  subst hp2
  rfl

/-- C1: for every GET request to path "/", the response body is exactly
the JSON object with the three keys status, service, docs bound to the
literal strings "ok", "AI Habit Tracker API", "/docs". -/
theorem root_response_body_exact (req : Request) (hm : req.method = "GET")
    (hp : req.path = "/") :
    responseBodyJson req =
      Json.obj
        [ ("status", Json.str "ok")
        , ("service", Json.str "AI Habit Tracker API")
        , ("docs", Json.str "/docs") ] ∧
    (handleRequest app req).body =
      Json.serialize
        (Json.obj
          [ ("status", Json.str "ok")
          , ("service", Json.str "AI Habit Tracker API")
          , ("docs", Json.str "/docs") ]) := by
  refine ⟨responseBodyJson_get_root req hm hp, ?_⟩
  rw [handle_get_root_eq req hm hp]
  rfl

/-- Witness for C1 at the concrete request GET "/" with no headers and
empty body. -/
theorem root_response_body_exact_witness :
    responseBodyJson { method := "GET", path := "/", headers := [], body := "" } =
      Json.obj
        [ ("status", Json.str "ok")
        , ("service", Json.str "AI Habit Tracker API")
        , ("docs", Json.str "/docs") ] ∧
    (handleRequest app { method := "GET", path := "/", headers := [], body := "" }).body =
      Json.serialize
        (Json.obj
          [ ("status", Json.str "ok")
          , ("service", Json.str "AI Habit Tracker API")
          , ("docs", Json.str "/docs") ]) :=
  root_response_body_exact { method := "GET", path := "/", headers := [], body := "" } rfl rfl

/-- C2: every GET request to "/" yields HTTP status 200. -/
theorem root_response_status_200 (req : Request) (hm : req.method = "GET")
    (hp : req.path = "/") : (handleRequest app req).status = 200 := by
  rw [handle_get_root_eq req hm hp]

/-- Witness for C2 at the concrete request GET "/". -/
theorem root_response_status_200_witness :
    (handleRequest app { method := "GET", path := "/", headers := [], body := "" }).status =
      200 :=
  root_response_status_200 { method := "GET", path := "/", headers := [], body := "" } rfl rfl

/-- C3: the response body of GET "/" is a JSON object with exactly the
keys status, service, docs, in that order and no others, and every value
is a string. -/
theorem root_body_shape_invariant (req : Request) (hm : req.method = "GET")
    (hp : req.path = "/") :
    (responseBodyJson req).objKeys = ["status", "service", "docs"] ∧
    (responseBodyJson req).isObjAllStrings = true := by
  rw [responseBodyJson_get_root req hm hp]
  exact ⟨rfl, rfl⟩

/-- Witness for C3 at the concrete request GET "/". -/
theorem root_body_shape_invariant_witness :
    (responseBodyJson { method := "GET", path := "/", headers := [], body := "" }).objKeys =
        ["status", "service", "docs"] ∧
    (responseBodyJson { method := "GET", path := "/", headers := [], body := "" }).isObjAllStrings =
        true :=
  root_body_shape_invariant { method := "GET", path := "/", headers := [], body := "" } rfl rfl

/-- C4: the handler is deterministic and input-independent: the handler
itself returns the same value on any two invocations, and any two GET "/"
requests, whatever their headers and bodies, receive identical responses,
with byte-identical serialized bodies. -/
theorem root_handler_input_independent (r1 r2 : Request) (hm1 : r1.method = "GET")
    (hp1 : r1.path = "/") (hm2 : r2.method = "GET") (hp2 : r2.path = "/") :
    (∀ u v : Unit, root u = root v) ∧
    handleRequest app r1 = handleRequest app r2 ∧
    (handleRequest app r1).body = (handleRequest app r2).body := by
  have h1 := handle_get_root_eq r1 hm1 hp1
  have h2 := handle_get_root_eq r2 hm2 hp2
  refine ⟨fun u v => rfl, ?_, ?_⟩
  · rw [h1, h2]
  · rw [h1, h2]

/-- Witness for C4 at two concrete GET "/" requests that differ in
headers and body. -/
theorem root_handler_input_independent_witness :
    (∀ u v : Unit, root u = root v) ∧
    handleRequest app { method := "GET", path := "/", headers := [("X-Run", "1")], body := "a" } =
      handleRequest app { method := "GET", path := "/", headers := [], body := "" } ∧
    (handleRequest app
        { method := "GET", path := "/", headers := [("X-Run", "1")], body := "a" }).body =
      (handleRequest app { method := "GET", path := "/", headers := [], body := "" }).body :=
  root_handler_input_independent
    { method := "GET", path := "/", headers := [("X-Run", "1")], body := "a" }
    { method := "GET", path := "/", headers := [], body := "" } rfl rfl rfl rfl

/-- C5: the handler has no side effects: threaded through the module
state, it returns the state unchanged while producing its fixed value. -/
theorem root_handler_no_side_effects (s : ModuleState) :
    (rootStateful s).fst = s ∧ (rootStateful s).snd = Except.ok rootPayload :=
  ⟨rfl, rfl⟩

/-- C6: the handler never produces an error: every invocation returns
normally with a JSON value, never an exception or error result. -/
theorem root_handler_never_errors (u : Unit) :
    (∃ j : Json, root u = Except.ok j) ∧ ∀ e : String, root u ≠ Except.error e :=
  ⟨⟨rootPayload, rfl⟩, fun _ h => Except.noConfusion h⟩

/-- C7: the application object has exactly one application-registered
route, a GET binding at path "/" whose handler is `root`, and no
application-registered middleware. -/
theorem app_single_get_root_route :
    app.routes = [{ method := "GET", path := "/", handler := root }] ∧
    app.routes.length = 1 ∧ app.middleware = [] :=
  ⟨rfl, rfl, rfl⟩

/-- C8: the response to every GET "/" request carries Content-Type
application/json. -/
theorem root_response_content_type_json (req : Request) (hm : req.method = "GET")
    (hp : req.path = "/") : (handleRequest app req).contentType = "application/json" := by
  rw [handle_get_root_eq req hm hp]

/-- Witness for C8 at the concrete request GET "/". -/
theorem root_response_content_type_json_witness :
    (handleRequest app
        { method := "GET", path := "/", headers := [], body := "" }).contentType =
      "application/json" :=
  root_response_content_type_json { method := "GET", path := "/", headers := [], body := "" }
    rfl rfl

/-- C9: the application is constructed with the framework default
documentation URL "/docs", which is exactly the path named in the docs
field of the root payload. -/
theorem app_docs_url_matches_payload :
    app.docs_url = some "/docs" ∧
    rootPayload.objLookup "docs" = some (Json.str "/docs") ∧
    (FastAPI.create "AI Habit Tracker Backend").docs_url = some "/docs" :=
  ⟨rfl, rfl, rfl⟩

/-- C10: the application title is "AI Habit Tracker Backend" while the
service field of the root payload is "AI Habit Tracker API"; the two
human-readable service names differ. -/
theorem app_title_differs_from_service :
    app.title = "AI Habit Tracker Backend" ∧
    rootPayload.objLookup "service" = some (Json.str "AI Habit Tracker API") ∧
    app.title ≠ "AI Habit Tracker API" :=
  ⟨rfl, rfl, by decide⟩
